import Mathlib

/-!
Shallow embedding of the rackspace-spot-mcp server core:
the MCP tool catalog with its read-only policy gate (src/index.ts) and the
SpotClient session manager with its auth middleware (src/client/spot-client.ts).
Definitions are transcribed from the TypeScript source; per-property JSON-schema
description strings are elided from the catalog (they are carried verbatim by the
projection and never inspected by any of the code under study).
-/

namespace RackspaceSpotMcp

/-- JSON input schema of a tool, as written in `allTools` in src/index.ts:
an object schema given by its property list (property name, JSON type) and
its list of required property names. -/
structure InputSchema where
  properties : List (String × String)
  required : List String
deriving DecidableEq, Repr

/-- Internal catalog record (interface SpotTool extends Tool in src/index.ts):
the MCP tool shape plus the internal optional `writable` capability flag. -/
structure SpotTool where
  name : String
  description : String
  inputSchema : InputSchema
  writable : Option Bool := none
deriving DecidableEq, Repr

/-- Externally visible tool shape (MCP `Tool`): the same record with the
internal `writable` capability flag absent from the type altogether. -/
structure PublicTool where
  name : String
  description : String
  inputSchema : InputSchema
deriving DecidableEq, Repr

/-- The projection `({ writable, ...rest }) => rest` used by the
ListTools handler: drops the internal capability flag, keeping
name, description and input schema. -/
def toPublicTool (t : SpotTool) : PublicTool :=
  { name := t.name, description := t.description, inputSchema := t.inputSchema }

/-- The `WRITABLE_TOOLS` set of src/index.ts: names of tools that modify
resources, used by the CallTool handler to block execution in read-only mode. -/
def WRITABLE_TOOLS : List String :=
  ["create_cloudspace",
   "delete_cloudspace",
   "create_spot_node_pool",
   "delete_spot_node_pool",
   "create_ondemand_node_pool",
   "delete_ondemand_node_pool"]

/-- Function `isReadOnly()` of src/index.ts: the process-wide policy flag, read from the
RACKSPACE_SPOT_READ_ONLY environment variable; restricted iff the value is
the string "true" or "1". -/
def isReadOnly (envValue : Option String) : Bool :=
  envValue == some ("true") || envValue == some ("1")

/-- The `allTools` catalog of src/index.ts, transcribed entry by entry. -/
def allTools : List SpotTool :=
  [{ name := "list_regions",
     description := "List all available Rackspace Spot regions where cloudspaces can be deployed. Returns region names, countries, and provider information.",
     inputSchema := { properties := [], required := [] } },
   { name := "get_region",
     description := "Get detailed information about a specific Rackspace Spot region by name.",
     inputSchema := { properties := [("name", "string")], required := ["name"] } },
   { name := "list_server_classes",
     description := "List all available server classes (machine types) that can be used for node pools. Returns CPU, memory, and pricing information.",
     inputSchema := { properties := [], required := [] } },
   { name := "get_server_class",
     description := "Get detailed information about a specific server class by name.",
     inputSchema := { properties := [("name", "string")], required := ["name"] } },
   { name := "list_organizations",
     description := "List all organizations the user has access to. Returns organization names and their associated namespaces (org-xxx format) needed for other API calls.",
     inputSchema := { properties := [], required := [] } },
   { name := "list_cloudspaces",
     description := "List all Kubernetes cloudspaces (clusters) in a specific organization namespace.",
     inputSchema := { properties := [("namespace", "string")], required := ["namespace"] } },
   { name := "get_cloudspace",
     description := "Get detailed information about a specific cloudspace including its status, region, and configuration.",
     inputSchema := { properties := [("namespace", "string"), ("name", "string")], required := ["namespace", "name"] } },
   { name := "create_cloudspace",
     description := "Create a new Kubernetes cloudspace (cluster) in a specific region. The cloudspace will be fully managed by Rackspace Spot.",
     inputSchema := { properties := [("namespace", "string"), ("name", "string"), ("region", "string"), ("haControlPlane", "boolean")],
                      required := ["namespace", "name", "region"] },
     writable := some true },
   { name := "delete_cloudspace",
     description := "Delete a cloudspace and all its associated resources. This action is irreversible.",
     inputSchema := { properties := [("namespace", "string"), ("name", "string")], required := ["namespace", "name"] },
     writable := some true },
   { name := "list_spot_node_pools",
     description := "List all spot node pools in a cloudspace. Spot nodes use auction-based pricing for significant cost savings.",
     inputSchema := { properties := [("namespace", "string"), ("cloudspaceName", "string")], required := ["namespace", "cloudspaceName"] } },
   { name := "get_spot_node_pool",
     description := "Get detailed information about a specific spot node pool including bid price, node count, and status.",
     inputSchema := { properties := [("namespace", "string"), ("name", "string")], required := ["namespace", "name"] } },
   { name := "create_spot_node_pool",
     description := "Create a new spot node pool with auction-based pricing. Set a maximum bid price per hour for significant cost savings.",
     inputSchema := { properties := [("namespace", "string"), ("name", "string"), ("cloudspaceName", "string"), ("serverClassName", "string"), ("bidPrice", "string"), ("minNodes", "number"), ("maxNodes", "number"), ("desiredNodes", "number")],
                      required := ["namespace", "name", "cloudspaceName", "serverClassName", "bidPrice"] },
     writable := some true },
   { name := "delete_spot_node_pool",
     description := "Delete a spot node pool from a cloudspace.",
     inputSchema := { properties := [("namespace", "string"), ("name", "string")], required := ["namespace", "name"] },
     writable := some true },
   { name := "list_ondemand_node_pools",
     description := "List all on-demand node pools in a cloudspace. On-demand nodes have fixed pricing and guaranteed availability.",
     inputSchema := { properties := [("namespace", "string"), ("cloudspaceName", "string")], required := ["namespace", "cloudspaceName"] } },
   { name := "get_ondemand_node_pool",
     description := "Get detailed information about a specific on-demand node pool.",
     inputSchema := { properties := [("namespace", "string"), ("name", "string")], required := ["namespace", "name"] } },
   { name := "create_ondemand_node_pool",
     description := "Create a new on-demand node pool with fixed pricing and guaranteed availability.",
     inputSchema := { properties := [("namespace", "string"), ("name", "string"), ("cloudspaceName", "string"), ("serverClassName", "string"), ("minNodes", "number"), ("maxNodes", "number"), ("desiredNodes", "number")],
                      required := ["namespace", "name", "cloudspaceName", "serverClassName"] },
     writable := some true },
   { name := "delete_ondemand_node_pool",
     description := "Delete an on-demand node pool from a cloudspace.",
     inputSchema := { properties := [("namespace", "string"), ("name", "string")], required := ["namespace", "name"] },
     writable := some true },
   { name := "get_kubeconfig",
     description := "Generate a kubeconfig file for accessing a cloudspace's Kubernetes cluster with kubectl.",
     inputSchema := { properties := [("organizationName", "string"), ("cloudspaceName", "string")], required := ["organizationName", "cloudspaceName"] } },
   { name := "get_market_pricing",
     description := "Get current market pricing and capacity information for all server classes across regions. Useful for determining optimal bid prices.",
     inputSchema := { properties := [], required := [] } },
   { name := "get_price_history",
     description := "Get historical price data for a specific server class in a region. Useful for understanding price trends.",
     inputSchema := { properties := [("serverClass", "string"), ("region", "string")], required := ["serverClass", "region"] } },
   { name := "get_percentile_pricing",
     description := "Get percentile pricing information showing price distribution for server classes. Useful for setting competitive bid prices.",
     inputSchema := { properties := [], required := [] } }]

/-- Names of the mutating catalog entries, i.e. of the tools carrying the
internal `writable` capability flag. -/
def writableToolNames : List String :=
  (allTools.filter (fun t => t.writable.getD false)).map (fun t => t.name)

/-- The ListTools request handler of src/index.ts. In read-only mode the
catalog is filtered to the tools whose `writable` flag is JS-falsy
(`allTools.filter ((tool) => !tool.writable)`); then every advertised entry is
the `toPublicTool` projection. The handler only reads the catalog; the second
component returns the catalog records as they stand after the call, making the
absence of mutation explicit. -/
def listToolsHandler (readOnlyEnv : Option String) (catalog : List SpotTool) :
    List PublicTool × List SpotTool :=
  let tools := if isReadOnly readOnlyEnv then catalog.filter (fun t => !(t.writable.getD false)) else catalog
  (tools.map toPublicTool, catalog)

/-- Names handled by the `switch (name)` dispatch of the CallTool handler in
src/index.ts, in case order; a name outside this list reaches the default case,
which throws `Unknown tool: ...` inside the try block. -/
def knownToolNames : List String :=
  ["list_regions", "get_region",
   "list_server_classes", "get_server_class",
   "list_organizations",
   "list_cloudspaces", "get_cloudspace", "create_cloudspace", "delete_cloudspace",
   "list_spot_node_pools", "get_spot_node_pool", "create_spot_node_pool", "delete_spot_node_pool",
   "list_ondemand_node_pools", "get_ondemand_node_pool", "create_ondemand_node_pool", "delete_ondemand_node_pool",
   "get_kubeconfig",
   "get_market_pricing", "get_price_history", "get_percentile_pricing"]

/-- Message of the error thrown by `getRefreshToken()` in src/index.ts when the
RACKSPACE_SPOT_REFRESH_TOKEN environment variable is absent or JS-falsy. -/
def refreshTokenRequiredMessage : String :=
  "RACKSPACE_SPOT_REFRESH_TOKEN environment variable is required. Get your refresh token from https://spot.rackspace.com/ui/api-access/terraform"

/-- Function `getRefreshToken()` of src/index.ts: reads the environment variable and
throws when the value is missing or empty (JS falsy). -/
def getRefreshToken (env : Option String) : Except String String :=
  match env with
  | some token => if token ≠ "" then .ok token else .error refreshTokenRequiredMessage
  | none => .error refreshTokenRequiredMessage

/-- Text of the CallTool handler's read-only block response for a tool name. -/
def readOnlyBlockedText (name : String) : String :=
  "Error: Tool \"" ++ name ++ "\" is not available in read-only mode. Set RACKSPACE_SPOT_READ_ONLY=false to enable write operations."

/-- Result envelope returned by the CallTool handler: a single text content
item plus the error flag (the source omits `isError` on success, which a JSON
consumer reads as false). -/
structure ToolResult where
  text : String
  isError : Bool
deriving DecidableEq, Repr

/-- Outcome of one CallTool request: the result envelope together with whether
the dispatch reached a SpotClient handler (used to state that blocked and
unknown invocations never run a handler). -/
structure CallOutcome where
  result : ToolResult
  handlerInvoked : Bool
deriving DecidableEq, Repr

/-- The CallTool request handler of src/index.ts. `handler` stands for the
outcome of the SpotClient call the switch would dispatch to: `.ok payload`
models a value already serialized by JSON.stringify, `.error msg` models a
thrown exception or rejected promise (auth, transport, or argument failure).
The handler first applies the read-only gate, then lazily builds the client
(`getClient()` calls `getRefreshToken()`, whose exception is caught by the
surrounding try), then dispatches by name, catching every exception into an
error envelope. -/
def callToolHandler (readOnlyEnv refreshTokenEnv : Option String) (name : String)
    (handler : Except String String) : CallOutcome :=
  if isReadOnly readOnlyEnv && WRITABLE_TOOLS.contains name then
    { result := { text := readOnlyBlockedText name, isError := true }, handlerInvoked := false }
  else
    match getRefreshToken refreshTokenEnv with
    | .error msg =>
        { result := { text := "Error: " ++ msg, isError := true }, handlerInvoked := false }
    | .ok _ =>
        if knownToolNames.contains name then
          match handler with
          | .ok payload => { result := { text := payload, isError := false }, handlerInvoked := true }
          | .error msg => { result := { text := "Error: " ++ msg, isError := true }, handlerInvoked := true }
        else
          { result := { text := "Error: " ++ ("Unknown tool: " ++ name), isError := true }, handlerInvoked := false }

/-- The running server produced by `main()` in src/index.ts, reduced to the
startup log line it emits once the stdio transport is connected. -/
structure RunningServer where
  modeMessage : String
deriving DecidableEq, Repr

/-- Function `main()` of src/index.ts: registers the two request handlers and connects
the stdio transport. It never reads RACKSPACE_SPOT_REFRESH_TOKEN (that read
happens lazily inside `getClient()` during a CallTool request), so the only
failure `main` can propagate to the fatal `.catch` is a transport connection
failure, modelled by `connectOk`. -/
def mainStartup (readOnlyEnv : Option String) (_refreshTokenEnv : Option String)
    (connectOk : Bool) : Except String RunningServer :=
  if connectOk then
    .ok { modeMessage := "Rackspace Spot MCP server running on stdio (" ++ (if isReadOnly readOnlyEnv then "read-only" else "read-write") ++ " mode)" }
  else
    .error ("Fatal error: transport connection failed")

/-- Mutable token cache of SpotClient (src/client/spot-client.ts): the fields
`accessToken : string | null` (initially null) and `tokenExpiry : number`
(initially 0), with times in milliseconds. -/
structure SessionState where
  accessToken : Option String
  tokenExpiry : Int
deriving DecidableEq, Repr

/-- Session state of a freshly constructed SpotClient. -/
def initialSession : SessionState := { accessToken := none, tokenExpiry := 0 }

/-- Response of one fetch of the token-issuance endpoint POST /oauth/token:
`ok`/`status` from the HTTP response, `body` its text (read only on failure),
and on success the `id_token` and `expires_in` (seconds) fields of the JSON
payload that `authenticate()` consumes. -/
structure TokenResponse where
  ok : Bool
  status : Nat
  body : String
  id_token : String
  expires_in : Int
deriving DecidableEq, Repr

/-- The validity check inlined in `ensureAuthenticated()`:
`this.accessToken && Date.now() < this.tokenExpiry - 60000`. A JS string is
truthy iff it is non-empty, hence the explicit emptiness test. -/
def hasValidToken (s : SessionState) (now : Int) : Bool :=
  (match s.accessToken with
   | some t => t ≠ ""
   | none => false) && decide (now < s.tokenExpiry - 60000)

/-- Method `authenticate()` of SpotClient: one POST of the refresh token to
/oauth/token. On a non-ok response it throws
`Authentication failed: status - body` having touched neither cached field;
on success it overwrites the cache with the new id_token and
`Date.now() + expires_in * 1000`. Returns the session state after the call
together with the thrown message, if any. -/
def authenticate (s : SessionState) (now : Int) (resp : TokenResponse) :
    SessionState × Option String :=
  if resp.ok then
    ({ accessToken := some resp.id_token, tokenExpiry := now + resp.expires_in * 1000 }, none)
  else
    (s, some ("Authentication failed: " ++ toString resp.status ++ " - " ++ resp.body))

/-- Method `ensureAuthenticated()` of SpotClient: returns immediately when the cached
token is truthy and inside the 60 s safety window, otherwise runs
`authenticate()`. The final component counts token-issuance fetches performed
by this call. -/
def ensureAuthenticated (s : SessionState) (now : Int) (resp : TokenResponse) :
    SessionState × Option String × Nat :=
  if hasValidToken s now then
    (s, none, 0)
  else
    let r := authenticate s now resp
    (r.1, r.2, 1)

/-- JS `String.prototype.includes`, used by the middleware's URL tests:
the fragment occurs contiguously inside the URL. -/
def urlIncludes (url frag : String) : Bool :=
  decide (List.IsInfix frag.toList url.toList)

/-- Outbound HTTP request as the middleware sees it: URL plus header map. -/
structure SpotRequest where
  url : String
  headers : List (String × String)
deriving DecidableEq, Repr

/-- Semantics of `Headers.set`: replaces the value of an existing header name or appends
the pair. -/
def setHeader (headers : List (String × String)) (k v : String) : List (String × String) :=
  if headers.any (fun p => p.1 == k) then
    headers.map (fun p => if p.1 == k then (k, v) else p)
  else
    headers ++ [(k, v)]

/-- The `authMiddleware.onRequest` hook installed on the openapi-fetch client
in the SpotClient constructor. URLs containing "/oauth/token" or
"/generate-kubeconfig" are passed through untouched; otherwise it awaits
`ensureAuthenticated()` (whose exception propagates to the caller) and, when
the cached token is truthy, sets the bearer Authorization header. The final
component counts token-issuance fetches triggered by the hook. -/
def authMiddlewareOnRequest (s : SessionState) (now : Int) (resp : TokenResponse)
    (req : SpotRequest) : Except String (SpotRequest × SessionState) × Nat :=
  if urlIncludes req.url ("/oauth/token") || urlIncludes req.url ("/generate-kubeconfig") then
    (.ok (req, s), 0)
  else
    match ensureAuthenticated s now resp with
    | (_, some e, n) => (.error e, n)
    | (s2, none, n) =>
        match s2.accessToken with
        | some t =>
            if t ≠ "" then
              (.ok ({ url := req.url, headers := setHeader req.headers ("Authorization") ("Bearer " ++ t) }, s2), n)
            else
              (.ok (req, s2), n)
        | none => (.ok (req, s2), n)

/-- Default API base URL of SpotClient. -/
def API_BASE_URL : String := "https://spot.rackspace.com"

/-- The fetch issued by `generateKubeconfig()` of SpotClient: a direct POST
(bypassing the openapi-fetch client and its middleware) whose JSON body embeds
the raw refresh token; the only header set is Content-Type — no bearer token
is attached. Returns the request and the body's key/value fields. -/
def generateKubeconfigFetch (apiBaseUrl refreshTok organizationName cloudspaceName : String) :
    SpotRequest × List (String × String) :=
  ({ url := apiBaseUrl ++ "/apis/auth.ngpc.rxt.io/v1/generate-kubeconfig",
     headers := [("Content-Type", "application/json")] },
   [("organization_name", organizationName),
    ("cloudspace_name", cloudspaceName),
    ("refresh_token", refreshTok)])

/-- Cooperative-interleaving run of N concurrent `ensureAuthenticated()` calls
under the schedule in which every caller executes its synchronous validity
check before any token fetch resolves. `ensureAuthenticated` in the source
caches no in-flight authentication promise, so under this legal schedule each
caller that observes an invalid session proceeds into its own `authenticate()`
fetch; the fetch commits then land in completion order, each overwriting the
cache (failed fetches leave it untouched). Caller i is handed `resps[i]` as
the response to its own fetch. Returns the final session state, the exception
observed by each caller, and the total number of token-issuance fetches. -/
def concurrentEnsureAuthenticated (s : SessionState) (now : Int)
    (resps : List TokenResponse) : SessionState × List (Option String) × Nat :=
  if hasValidToken s now then
    (s, resps.map (fun _ => none), 0)
  else
    (resps.foldl (fun st r => (authenticate st now r).1) s,
     resps.map (fun r => (authenticate s now r).2),
     resps.length)

lemma writableToolNames_eq : writableToolNames = WRITABLE_TOOLS := by decide

lemma restricted_listing (env : Option String) (hro : isReadOnly env = true) :
    (listToolsHandler env allTools).1 =
      (allTools.filter (fun t => !(t.writable.getD false))).map toPublicTool := by
  simp [listToolsHandler, hro]

lemma blocked_outcome_of_writable (env rt : Option String) (name : String)
    (handler : Except String String) (hro : isReadOnly env = true)
    (hc : name ∈ WRITABLE_TOOLS) :
    callToolHandler env rt name handler =
      { result := { text := readOnlyBlockedText name, isError := true }, handlerInvoked := false } := by
  simp [callToolHandler, hro, hc]

/-- Claim C10: the fixed `WRITABLE_TOOLS` name set used by the execution gate
is exactly the set of catalog entries tagged `writable`, so a catalog entry is
blocked from execution in restricted mode (its name is in `WRITABLE_TOOLS`)
exactly when it is omitted from the restricted-mode listing. -/
theorem writable_set_matches_catalog_capability :
    writableToolNames = WRITABLE_TOOLS ∧
    (allTools.all (fun t =>
      WRITABLE_TOOLS.contains t.name ==
        !(((listToolsHandler (some ("true")) allTools).1.map (fun p => p.name)).contains t.name))) = true := by
  exact ⟨by decide, by decide⟩

/-- Claim C9: in both policy modes every entry returned by the ListTools
handler is the `toPublicTool` projection of a catalog record — a shape from
which the internal `writable` capability flag is absent by construction of
`PublicTool` — and producing the listing leaves the internal catalog records
unmodified, the capability flags of the six mutating entries included. -/
theorem listTools_projection_and_frame (env : Option String) :
    (listToolsHandler env allTools).2 = allTools ∧
    ((listToolsHandler env allTools).1).all (fun p => (allTools.map toPublicTool).contains p) = true ∧
    (((listToolsHandler env allTools).2).filter (fun t => t.writable.getD false)).map (fun t => t.name) = WRITABLE_TOOLS := by
  have hframe : (listToolsHandler env allTools).2 = allTools := rfl
  refine ⟨hframe, ?_, by rw [hframe]; decide⟩
  cases h : isReadOnly env <;> simp only [listToolsHandler, h] <;> decide

/-- Claim C2 counterexample: the catalog does not have 22 commands and the
restricted-mode listing does not have 16 entries (they have 21 and 15). -/
theorem catalog_count_counterexample :
    ¬ (allTools.length = 22 ∧ ((listToolsHandler (some ("true")) allTools).1).length = 16) := by
  decide

/-- Claim C2 (amended): the catalog has 21 commands of which 6 are tagged
mutating; with policy=restricted the listing has 15 entries, and invoking
create_cloudspace with any arguments returns an error result containing
"not available in read-only mode". -/
theorem catalog_concrete_scenario :
    allTools.length = 21 ∧
    (allTools.filter (fun t => t.writable.getD false)).length = 6 ∧
    ((listToolsHandler (some ("true")) allTools).1).length = 15 ∧
    ∀ (rt : Option String) (handler : Except String String),
      (callToolHandler (some ("true")) rt ("create_cloudspace") handler).result.isError = true ∧
      urlIncludes ((callToolHandler (some ("true")) rt ("create_cloudspace") handler).result.text) ("not available in read-only mode") = true := by
  refine ⟨by decide, by decide, by decide, ?_⟩
  intro rt handler
  rw [blocked_outcome_of_writable (some ("true")) rt ("create_cloudspace") handler (by decide) (by decide)]
  exact ⟨rfl, by decide⟩

/-- Claim C1: under the restricted policy, every command tagged with the
mutate capability is absent from the ListTools response, and invoking it by
name — whatever the supplied arguments, i.e. whatever the dispatched handler
would have done — returns an error result whose message names the command as
not available in read-only mode, without the handler ever being invoked. -/
theorem restricted_policy_blocks_mutating_commands
    (env rt : Option String) (name : String) (handler : Except String String)
    (hro : isReadOnly env = true) (hmut : name ∈ writableToolNames) :
    name ∉ ((listToolsHandler env allTools).1.map (fun p => p.name)) ∧
    callToolHandler env rt name handler =
      { result := { text := readOnlyBlockedText name, isError := true }, handlerInvoked := false } := by
  have hw : name ∈ WRITABLE_TOOLS := writableToolNames_eq ▸ hmut
  refine ⟨?_, blocked_outcome_of_writable env rt name handler hro hw⟩
  rw [restricted_listing env hro]
  have hdisj : name = "create_cloudspace" ∨ name = "delete_cloudspace" ∨
      name = "create_spot_node_pool" ∨ name = "delete_spot_node_pool" ∨
      name = "create_ondemand_node_pool" ∨ name = "delete_ondemand_node_pool" := by
    simpa [WRITABLE_TOOLS] using hw
  rcases hdisj with h | h | h | h | h | h <;> subst h <;> decide

/-- Witness for claim C1 at the concrete tool create_cloudspace. -/
theorem restricted_policy_blocks_mutating_commands_witness :
    "create_cloudspace" ∉ ((listToolsHandler (some ("true")) allTools).1.map (fun p => p.name)) ∧
    callToolHandler (some ("true")) (some ("tok")) ("create_cloudspace") (.ok ("payload")) =
      { result := { text := readOnlyBlockedText ("create_cloudspace"), isError := true }, handlerInvoked := false } :=
  restricted_policy_blocks_mutating_commands (some ("true")) (some ("tok"))
    ("create_cloudspace") (.ok ("payload")) (by decide) (by decide)

lemma writable_mem_known {n : String} (h : n ∈ WRITABLE_TOOLS) : n ∈ knownToolNames := by
  have hd : n = "create_cloudspace" ∨ n = "delete_cloudspace" ∨
      n = "create_spot_node_pool" ∨ n = "delete_spot_node_pool" ∨
      n = "create_ondemand_node_pool" ∨ n = "delete_ondemand_node_pool" := by
    simpa [WRITABLE_TOOLS] using h
  rcases hd with h1 | h1 | h1 | h1 | h1 | h1 <;> subst h1 <;> decide

lemma handler_error_gives_error_envelope (ro rt : Option String) (name msg : String) :
    (callToolHandler ro rt name (.error msg)).result.isError = true := by
  unfold callToolHandler
  split
  · rfl
  · split
    · rfl
    · split
      · rfl
      · rfl

/-- Claim C7: the CallTool handler is total, returning a result envelope on
every input — any exception a dispatched handler raises is caught and turned
into an error result carrying its message, and invoking a name outside the
switch catalog (with a configured credential) returns the unknown-tool error
result without any handler being invoked, in both policy modes. -/
theorem callTool_total_error_envelope :
    (∀ (ro rt : Option String) (name msg : String),
      (callToolHandler ro rt name (.error msg)).result.isError = true) ∧
    (∀ (ro rt : Option String) (name msg : String),
      (callToolHandler ro rt name (.error msg)).handlerInvoked = true →
      (callToolHandler ro rt name (.error msg)).result.text = "Error: " ++ msg) ∧
    (∀ (ro : Option String) (tok name : String) (handler : Except String String),
      tok ≠ "" → name ∉ knownToolNames →
      callToolHandler ro (some tok) name handler =
        { result := { text := "Error: " ++ ("Unknown tool: " ++ name), isError := true },
          handlerInvoked := false }) := by
  refine ⟨handler_error_gives_error_envelope, ?_, ?_⟩
  · intro ro rt name msg
    unfold callToolHandler
    split
    · intro h
      simp at h
    · split
      · intro h
        simp at h
      · split
        · intro _
          rfl
        · intro h
          simp at h
  · intro ro tok name handler htok hunk
    have hw : name ∉ WRITABLE_TOOLS := fun hmem => hunk (writable_mem_known hmem)
    simp [callToolHandler, getRefreshToken, htok, hw, hunk]

/-- Witness for claim C7 at concrete invocations: a failing handler for a
known tool, and an unknown tool name. -/
theorem callTool_total_error_envelope_witness :
    (callToolHandler (some ("false")) (some ("tok")) ("list_regions") (.error ("boom"))).result.isError = true ∧
    (callToolHandler (some ("false")) (some ("tok")) ("list_regions") (.error ("boom"))).result.text = "Error: " ++ "boom" ∧
    callToolHandler (some ("false")) (some ("tok")) ("nonexistent_tool") (.ok ("x")) =
      { result := { text := "Error: " ++ ("Unknown tool: " ++ "nonexistent_tool"), isError := true },
        handlerInvoked := false } := by
  refine ⟨callTool_total_error_envelope.1 (some ("false")) (some ("tok")) ("list_regions") ("boom"),
    callTool_total_error_envelope.2.1 (some ("false")) (some ("tok")) ("list_regions") ("boom") (by decide),
    callTool_total_error_envelope.2.2 (some ("false")) ("tok") ("nonexistent_tool") (.ok ("x")) (by decide) (by decide)⟩

/-- Claim C8 counterexample: with no credential configured the process does
not fail at startup. `main` never reads the credential, so startup succeeds,
and the missing credential instead surfaces on each invocation as a caught
error result naming the required environment variable. -/
theorem missing_credential_not_startup_fatal :
    mainStartup (some ("false")) none true =
      .ok { modeMessage := "Rackspace Spot MCP server running on stdio (" ++ "read-write" ++ " mode)" } ∧
    (callToolHandler (some ("false")) none ("list_regions") (.ok ("payload"))).result =
      { text := "Error: " ++ refreshTokenRequiredMessage, isError := true } ∧
    (callToolHandler (some ("false")) none ("list_regions") (.ok ("payload"))).handlerInvoked = false := by
  refine ⟨rfl, by decide, by decide⟩

/-- Claim C8 (amended): the process never terminates because of a single
command invocation — every handler exception is caught into an error result —
and startup does not depend on the credential at all: `main`'s outcome is the
same whatever the credential variable holds, and a missing credential instead
makes each invocation that needs the API client return an error result naming
the required RACKSPACE_SPOT_REFRESH_TOKEN variable. -/
theorem process_survives_invocation_failures :
    (∀ (ro rt : Option String) (name msg : String),
      (callToolHandler ro rt name (.error msg)).result.isError = true) ∧
    (∀ (ro rt rt2 : Option String) (connectOk : Bool),
      mainStartup ro rt connectOk = mainStartup ro rt2 connectOk) ∧
    (∀ (ro : Option String) (handler : Except String String),
      callToolHandler ro none ("list_regions") handler =
        { result := { text := "Error: " ++ refreshTokenRequiredMessage, isError := true },
          handlerInvoked := false }) := by
  refine ⟨handler_error_gives_error_envelope, fun ro rt rt2 connectOk => rfl, ?_⟩
  intro ro handler
  have h1 : ("list_regions" : String) ∉ WRITABLE_TOOLS := by decide
  simp [callToolHandler, getRefreshToken, h1]

lemma hasValidToken_iff (s : SessionState) (now : Int) :
    hasValidToken s now = true ↔
      ((∃ t, s.accessToken = some t ∧ t ≠ "") ∧ now < s.tokenExpiry - 60000) := by
  unfold hasValidToken
  cases h : s.accessToken <;> simp [h]

lemma ensureAuthenticated_count (s : SessionState) (now : Int) (resp : TokenResponse) :
    (ensureAuthenticated s now resp).2.2 = if hasValidToken s now then 0 else 1 := by
  unfold ensureAuthenticated
  split <;> rfl

lemma ensureAuthenticated_valid (s : SessionState) (now : Int) (resp : TokenResponse)
    (h : hasValidToken s now = true) : ensureAuthenticated s now resp = (s, none, 0) := by
  unfold ensureAuthenticated
  simp [h]

/-- Claim C3: `ensureAuthenticated` performs a token exchange exactly when the
cached token is absent (or empty, hence JS-falsy) or the current time has
reached the cached expiry minus the 60 s safety margin; inside the validity
window it returns with the cached session untouched and no exchange, so a
second invocation inside the window of the session established by a first
invocation adds no exchange (one in total), while an invocation at or past
expiry-minus-margin performs exactly one fresh exchange. -/
theorem ensureAuthenticated_refresh_policy (s : SessionState) (now : Int) (resp : TokenResponse) :
    ((ensureAuthenticated s now resp).2.2 = 0 ↔
      ((∃ t, s.accessToken = some t ∧ t ≠ "") ∧ now < s.tokenExpiry - 60000)) ∧
    (hasValidToken s now = true → ensureAuthenticated s now resp = (s, none, 0)) ∧
    (s.tokenExpiry - 60000 ≤ now → (ensureAuthenticated s now resp).2.2 = 1) ∧
    (∀ (now2 : Int) (resp2 : TokenResponse),
      hasValidToken s now = false →
      hasValidToken (ensureAuthenticated s now resp).1 now2 = true →
      (ensureAuthenticated s now resp).2.2 +
        (ensureAuthenticated (ensureAuthenticated s now resp).1 now2 resp2).2.2 = 1) := by
  refine ⟨?_, ensureAuthenticated_valid s now resp, ?_, ?_⟩
  · constructor
    · intro h0
      by_cases hv : hasValidToken s now
      · exact (hasValidToken_iff s now).mp hv
      · rw [ensureAuthenticated_count] at h0
        simp [hv] at h0
    · intro hrhs
      rw [ensureAuthenticated_count, (hasValidToken_iff s now).mpr hrhs]
      rfl
  · intro h
    have hv : hasValidToken s now = false := by
      rcases hb : hasValidToken s now with _ | _
      · rfl
      · exact absurd (((hasValidToken_iff s now).mp hb).2) (not_lt.mpr h)
    rw [ensureAuthenticated_count, hv]
    rfl
  · intro now2 resp2 h1 h2
    rw [ensureAuthenticated_count, ensureAuthenticated_count, h1, h2]
    rfl

/-- Witness for claim C3: a cached session inside its window is reused with no
exchange; at expiry-minus-margin one exchange happens; a cold start followed
by an in-window call performs one exchange in total. -/
theorem ensureAuthenticated_refresh_policy_witness :
    ensureAuthenticated { accessToken := some ("tok"), tokenExpiry := 3600000 } 1000
        { ok := true, status := 200, body := "", id_token := "tok2", expires_in := 3600 } =
      ({ accessToken := some ("tok"), tokenExpiry := 3600000 }, none, 0) ∧
    (ensureAuthenticated { accessToken := some ("tok"), tokenExpiry := 3600000 } 3540000
        { ok := true, status := 200, body := "", id_token := "tok2", expires_in := 3600 }).2.2 = 1 ∧
    (ensureAuthenticated initialSession 0
        { ok := true, status := 200, body := "", id_token := "tok2", expires_in := 3600 }).2.2 +
      (ensureAuthenticated
        (ensureAuthenticated initialSession 0
          { ok := true, status := 200, body := "", id_token := "tok2", expires_in := 3600 }).1 1000
        { ok := true, status := 200, body := "", id_token := "tok3", expires_in := 3600 }).2.2 = 1 := by
  refine ⟨(ensureAuthenticated_refresh_policy _ _ _).2.1 (by decide),
    (ensureAuthenticated_refresh_policy _ _ _).2.2.1 (by decide),
    (ensureAuthenticated_refresh_policy _ _ _).2.2.2 1000 _ (by decide) (by decide)⟩

/-- Claim C5: a non-ok token-issuance response makes `authenticate` fail with
an error carrying the response status and body while leaving both cached
session fields exactly as they were; only an ok response overwrites them. -/
theorem authenticate_error_preserves_session (s : SessionState) (now : Int) (resp : TokenResponse) :
    (resp.ok = false →
      authenticate s now resp =
        (s, some ("Authentication failed: " ++ toString resp.status ++ " - " ++ resp.body))) ∧
    (resp.ok = true →
      authenticate s now resp =
        ({ accessToken := some resp.id_token, tokenExpiry := now + resp.expires_in * 1000 }, none)) := by
  constructor <;> intro h <;> simp [authenticate, h]

/-- Witness for claim C5: a 401 leaves the previous session untouched; a 200
overwrites it. -/
theorem authenticate_error_preserves_session_witness :
    authenticate { accessToken := some ("old"), tokenExpiry := 5 } 100
        { ok := false, status := 401, body := "bad token", id_token := "", expires_in := 0 } =
      ({ accessToken := some ("old"), tokenExpiry := 5 }, some ("Authentication failed: 401 - bad token")) ∧
    authenticate { accessToken := some ("old"), tokenExpiry := 5 } 100
        { ok := true, status := 200, body := "", id_token := "new", expires_in := 3600 } =
      ({ accessToken := some ("new"), tokenExpiry := 100 + 3600 * 1000 }, none) := by
  constructor
  · rw [(authenticate_error_preserves_session _ _ _).1 rfl]
    decide
  · rw [(authenticate_error_preserves_session _ _ _).2 rfl]

lemma authMiddleware_count (s : SessionState) (now : Int) (resp : TokenResponse)
    (req : SpotRequest)
    (hne : (urlIncludes req.url ("/oauth/token") || urlIncludes req.url ("/generate-kubeconfig")) = false) :
    (authMiddlewareOnRequest s now resp req).2 = (ensureAuthenticated s now resp).2.2 := by
  unfold authMiddlewareOnRequest
  rw [if_neg (by simp [hne])]
  repeat' split
  all_goals simp_all

lemma authMiddleware_nonexempt_valid (s : SessionState) (now : Int) (resp : TokenResponse)
    (req : SpotRequest)
    (hne : (urlIncludes req.url ("/oauth/token") || urlIncludes req.url ("/generate-kubeconfig")) = false)
    (hv : hasValidToken s now = true) :
    ∃ t, s.accessToken = some t ∧ t ≠ "" ∧
      authMiddlewareOnRequest s now resp req =
        (.ok ({ url := req.url, headers := setHeader req.headers ("Authorization") ("Bearer " ++ t) }, s), 0) := by
  obtain ⟨⟨t, ht, htne⟩, hlt⟩ := (hasValidToken_iff s now).mp hv
  refine ⟨t, ht, htne, ?_⟩
  unfold authMiddlewareOnRequest
  rw [if_neg (by simp [hne]), ensureAuthenticated_valid s now resp hv]
  simp [ht, htne]

lemma authMiddleware_nonexempt_refresh (s : SessionState) (now : Int) (resp : TokenResponse)
    (req : SpotRequest)
    (hne : (urlIncludes req.url ("/oauth/token") || urlIncludes req.url ("/generate-kubeconfig")) = false)
    (hv : hasValidToken s now = false) (hok : resp.ok = true) (hid : resp.id_token ≠ "") :
    authMiddlewareOnRequest s now resp req =
      (.ok ({ url := req.url, headers := setHeader req.headers ("Authorization") ("Bearer " ++ resp.id_token) },
            { accessToken := some resp.id_token, tokenExpiry := now + resp.expires_in * 1000 }), 1) := by
  have he : ensureAuthenticated s now resp =
      ({ accessToken := some resp.id_token, tokenExpiry := now + resp.expires_in * 1000 }, none, 1) := by
    unfold ensureAuthenticated authenticate
    simp [hv, hok]
  unfold authMiddlewareOnRequest
  rw [if_neg (by simp [hne]), he]
  simp [hid]

/-- Claim C6: requests whose URL contains the token-issuance path or the
kubeconfig-generation path pass through the middleware untouched, with no
token exchange and no bearer header attached; every other request first
ensures a valid token (exchanging exactly when the cache is invalid) and goes
out with the Authorization header set to that bearer token. The
kubeconfig-generation fetch itself carries only a Content-Type header — no
bearer token — and embeds the raw refresh token in its body, and its URL is in
the exempt set. -/
theorem authMiddleware_auth_exemption (s : SessionState) (now : Int) (resp : TokenResponse)
    (req : SpotRequest) :
    ((urlIncludes req.url ("/oauth/token") = true ∨ urlIncludes req.url ("/generate-kubeconfig") = true) →
      authMiddlewareOnRequest s now resp req = (.ok (req, s), 0)) ∧
    (urlIncludes req.url ("/oauth/token") = false →
     urlIncludes req.url ("/generate-kubeconfig") = false →
      ((authMiddlewareOnRequest s now resp req).2 = if hasValidToken s now then 0 else 1) ∧
      (hasValidToken s now = true →
        ∃ t, s.accessToken = some t ∧ t ≠ "" ∧
          authMiddlewareOnRequest s now resp req =
            (.ok ({ url := req.url, headers := setHeader req.headers ("Authorization") ("Bearer " ++ t) }, s), 0)) ∧
      (hasValidToken s now = false → resp.ok = true → resp.id_token ≠ "" →
        authMiddlewareOnRequest s now resp req =
          (.ok ({ url := req.url, headers := setHeader req.headers ("Authorization") ("Bearer " ++ resp.id_token) },
                { accessToken := some resp.id_token, tokenExpiry := now + resp.expires_in * 1000 }), 1))) ∧
    (∀ base tok org cs : String,
      (generateKubeconfigFetch base tok org cs).1.headers = [("Content-Type", "application/json")] ∧
      ("refresh_token", tok) ∈ (generateKubeconfigFetch base tok org cs).2 ∧
      urlIncludes (generateKubeconfigFetch API_BASE_URL tok org cs).1.url ("/generate-kubeconfig") = true) := by
  refine ⟨?_, ?_, ?_⟩
  · intro h
    rcases h with h | h <;> simp [authMiddlewareOnRequest, h]
  · intro h1 h2
    have hne : (urlIncludes req.url ("/oauth/token") || urlIncludes req.url ("/generate-kubeconfig")) = false := by
      rw [h1, h2]
      rfl
    refine ⟨?_, authMiddleware_nonexempt_valid s now resp req hne,
      authMiddleware_nonexempt_refresh s now resp req hne⟩
    rw [authMiddleware_count s now resp req hne, ensureAuthenticated_count]
  · intro base tok org cs
    refine ⟨rfl, by simp [generateKubeconfigFetch], ?_⟩
    show urlIncludes (API_BASE_URL ++ "/apis/auth.ngpc.rxt.io/v1/generate-kubeconfig") ("/generate-kubeconfig") = true
    decide

/-- Witness for claim C6: a token-issuance URL passes through untouched; a
resource URL with a cold cache triggers one exchange and goes out with the
bearer header; the kubeconfig body carries the raw refresh token. -/
theorem authMiddleware_auth_exemption_witness :
    authMiddlewareOnRequest initialSession 0
        { ok := true, status := 200, body := "", id_token := "tok2", expires_in := 3600 }
        { url := "https://login.spot.rackspace.com/oauth/token", headers := [] } =
      (.ok ({ url := "https://login.spot.rackspace.com/oauth/token", headers := [] }, initialSession), 0) ∧
    authMiddlewareOnRequest initialSession 0
        { ok := true, status := 200, body := "", id_token := "tok2", expires_in := 3600 }
        { url := "https://spot.rackspace.com/apis/ngpc.rxt.io/v1/regions", headers := [] } =
      (.ok ({ url := "https://spot.rackspace.com/apis/ngpc.rxt.io/v1/regions",
              headers := setHeader [] ("Authorization") ("Bearer " ++ "tok2") },
            { accessToken := some ("tok2"), tokenExpiry := 0 + 3600 * 1000 }), 1) ∧
    ("refresh_token", "secret") ∈ (generateKubeconfigFetch API_BASE_URL ("secret") ("org") ("cs")).2 := by
  refine ⟨(authMiddleware_auth_exemption initialSession 0 _ _).1 (Or.inl (by decide)),
    (authMiddleware_auth_exemption initialSession 0 _ _).2.1 (by decide) (by decide) |>.2.2
      (by decide) (by decide) (by decide),
    ((authMiddleware_auth_exemption initialSession 0
        { ok := true, status := 200, body := "", id_token := "tok2", expires_in := 3600 }
        { url := "https://spot.rackspace.com/apis/ngpc.rxt.io/v1/regions", headers := [] }).2.2
      API_BASE_URL ("secret") ("org") ("cs")).2.1⟩

/-- Claim C4 at its failing input: two concurrent callers both observing no
valid session before either token fetch resolves perform two token exchanges,
not one, and observe different outcomes when their fetches disagree —
`ensureAuthenticated` caches no in-flight authentication operation to
coalesce them. -/
theorem concurrent_authentication_not_coalesced :
    (concurrentEnsureAuthenticated initialSession 0
      [{ ok := true, status := 200, body := "", id_token := "tok", expires_in := 3600 },
       { ok := false, status := 500, body := "boom", id_token := "", expires_in := 0 }]).2.2 = 2 ∧
    (concurrentEnsureAuthenticated initialSession 0
      [{ ok := true, status := 200, body := "", id_token := "tok", expires_in := 3600 },
       { ok := false, status := 500, body := "boom", id_token := "", expires_in := 0 }]).2.1 =
      [none, some ("Authentication failed: 500 - boom")] ∧
    ¬ (concurrentEnsureAuthenticated initialSession 0
      [{ ok := true, status := 200, body := "", id_token := "tok", expires_in := 3600 },
       { ok := false, status := 500, body := "boom", id_token := "", expires_in := 0 }]).2.2 = 1 := by
  refine ⟨by decide, by decide, by decide⟩

end RackspaceSpotMcp
